import Mathlib

/-!
Shallow embedding of the Tauri backend in `src-tauri/src/lib.rs` of the
voice-dictation application.  The four remote-callable commands
(`start_recording`, `stop_recording`, `insert_text`, `check_voice_system`)
are modelled as pure functions over an explicit environment `Env` that
supplies the results of every external effect the Rust code performs
(environment variables, `which` lookups, filesystem existence checks,
process spawning and run-to-completion invocations).  The mutex-guarded
`VoiceState` is modelled as a plain record threaded through the calls.
Byte strings captured from processes are `List Nat` (byte values); Rust's
`String::from_utf8_lossy` is modelled by a total UTF-8 decoder that emits
U+FFFD for invalid subparts, and `str::trim` by dropping Unicode
whitespace from both ends.
-/

deriving instance DecidableEq for Except

/-- Captured result of a run-to-completion external invocation, mirroring
`std::process::Output`: exit status success bit, stdout bytes, stderr bytes. -/
structure ProcOutput where
  status_success : Bool
  stdout : List Nat
  stderr : List Nat
deriving DecidableEq, Repr

/-- Model of `std::process::Child`: an opaque ownership token for a spawned
process, carrying what `wait_with_output` will deliver (either an OS error
message or the captured output). -/
structure Child where
  waitResult : Except String ProcOutput
deriving DecidableEq, Repr

/-- Mirror of the Rust `VoiceState` struct: the optional process handle and
the diagnostic model-path string (the two mutex-guarded fields). -/
structure VoiceState where
  process : Option Child
  model_path : String
deriving DecidableEq, Repr

/-- Mirror of the Rust `RecordingConfig` struct. `timeout` stands for the
`u32` value (only ever converted to its decimal string). -/
structure RecordingConfig where
  timeout : Nat
  model_size : String
  auto_punctuation : Bool
  numbers_as_digits : Bool
deriving DecidableEq, Repr

/-- An external command invocation: program, argument list, and whether
stdout/stderr are redirected to capturable pipes. -/
structure SpawnCmd where
  program : String
  args : List String
  stdoutPiped : Bool
  stderrPiped : Bool
deriving DecidableEq, Repr

/-- Mirror of the Rust `VoiceSystemStatus` struct returned by
`check_voice_system`. -/
structure VoiceSystemStatus where
  nerd_dictation : Bool
  xdotool : Bool
  vosk_model_small : Bool
  vosk_model_large : Bool
  microphone : Bool
deriving DecidableEq, Repr

/-- The external world as the Rust code observes it: the `HOME` variable
(`none` models `env::var` failing, which `unwrap_or_default` turns into ""),
the `which::which` lookup table, filesystem existence, and the outcomes of
spawning (`Command::spawn`) and running to completion (`Command::output`). -/
structure Env where
  home : Option String
  which : String → Except String String
  pathExists : String → Bool
  spawn : SpawnCmd → Except String Child
  exec : SpawnCmd → Except String ProcOutput

/-- Is a UTF-8 continuation byte (0x80..=0xBF). -/
def isCont (b : Nat) : Bool := 0x80 ≤ b && b ≤ 0xBF

/-- The Unicode replacement character U+FFFD. -/
def repl : Char := Char.ofNat 0xFFFD

/-- Admissible second byte of a three-byte sequence, per the leading byte
(excludes overlong encodings and surrogates, as Rust's validator does). -/
def cont2ok (b1 b2 : Nat) : Bool :=
  if b1 == 0xE0 then 0xA0 ≤ b2 && b2 ≤ 0xBF
  else if b1 == 0xED then 0x80 ≤ b2 && b2 ≤ 0x9F
  else isCont b2

/-- Admissible second byte of a four-byte sequence, per the leading byte
(excludes overlong encodings and codepoints above U+10FFFF). -/
def cont4ok (b1 b2 : Nat) : Bool :=
  if b1 == 0xF0 then 0x90 ≤ b2 && b2 ≤ 0xBF
  else if b1 == 0xF4 then 0x80 ≤ b2 && b2 ≤ 0x8F
  else isCont b2

/-- Total UTF-8 decoder modelling Rust's `String::from_utf8_lossy`: valid
sequences decode to their scalar value, each maximal invalid subpart becomes
one U+FFFD, and decoding never fails. -/
def utf8DecodeLossy : List Nat → List Char
  | [] => []
  | b1 :: t1 =>
    if b1 < 0x80 then Char.ofNat b1 :: utf8DecodeLossy t1
    else if 0xC2 ≤ b1 && b1 ≤ 0xDF then
      match t1 with
      | [] => [repl]
      | b2 :: t2 =>
        if isCont b2 then
          Char.ofNat ((b1 % 32) * 64 + b2 % 64) :: utf8DecodeLossy t2
        else repl :: utf8DecodeLossy (b2 :: t2)
    else if 0xE0 ≤ b1 && b1 ≤ 0xEF then
      match t1 with
      | [] => [repl]
      | b2 :: t2 =>
        if cont2ok b1 b2 then
          match t2 with
          | [] => [repl]
          | b3 :: t3 =>
            if isCont b3 then
              Char.ofNat ((b1 % 16) * 4096 + (b2 % 64) * 64 + b3 % 64) ::
                utf8DecodeLossy t3
            else repl :: utf8DecodeLossy (b3 :: t3)
        else repl :: utf8DecodeLossy (b2 :: t2)
    else if 0xF0 ≤ b1 && b1 ≤ 0xF4 then
      match t1 with
      | [] => [repl]
      | b2 :: t2 =>
        if cont4ok b1 b2 then
          match t2 with
          | [] => [repl]
          | b3 :: t3 =>
            if isCont b3 then
              match t3 with
              | [] => [repl]
              | b4 :: t4 =>
                if isCont b4 then
                  Char.ofNat
                      ((b1 % 8) * 262144 + (b2 % 64) * 4096 +
                        (b3 % 64) * 64 + b4 % 64) ::
                    utf8DecodeLossy t4
                else repl :: utf8DecodeLossy (b4 :: t4)
            else repl :: utf8DecodeLossy (b3 :: t3)
        else repl :: utf8DecodeLossy (b2 :: t2)
    else repl :: utf8DecodeLossy t1

/-- Unicode `White_Space` property, the set trimmed by Rust's `str::trim`
via `char::is_whitespace`. -/
def rust_is_whitespace (c : Char) : Bool :=
  let n := c.toNat
  (0x9 ≤ n && n ≤ 0xD) || n == 0x20 || n == 0x85 || n == 0xA0 ||
    n == 0x1680 || (0x2000 ≤ n && n ≤ 0x200A) || n == 0x2028 ||
    n == 0x2029 || n == 0x202F || n == 0x205F || n == 0x3000

/-- Rust's `str::trim`: drop leading and trailing Unicode whitespace. -/
def rust_trim (cs : List Char) : List Char :=
  ((cs.dropWhile rust_is_whitespace).reverse.dropWhile rust_is_whitespace).reverse

/-- Pack a character list back into a `String`. -/
def mkStr (cs : List Char) : String := ⟨cs⟩

/-- The `which::which("nerd-dictation").or_else(fallback)` chain used by both
`start_recording` and `stop_recording`: search the executable path, then the
fixed fallback location under the home directory; keep the fallback's error. -/
def locate_nerd (env : Env) : Except String String :=
  match env.which "nerd-dictation" with
  | Except.ok p => Except.ok p
  | Except.error _ =>
    env.which ((env.home.getD "") ++ "/.local/bin/nerd-dictation")

/-- Model-directory name selected by the size selector, from
`if config.model_size == "large" ... else ...` in `start_recording`. -/
def model_name (model_size : String) : String :=
  if model_size == "large" then "vosk-model-en-us-0.22"
  else "vosk-model-small-en-us-0.15"

/-- The resolved model directory: `format!("{}/.local/share/vosk-models/{}",
home, model_name)` (braces elided; plain concatenation). -/
def resolve_model_dir (home model_size : String) : String :=
  home ++ "/.local/share/vosk-models/" ++ model_name model_size

/-- The fixed per-user configuration file path:
`format!("{}/.config/nerd-dictation/nerd-dictation.py", home)`. -/
def config_file_path (home : String) : String :=
  home ++ "/.config/nerd-dictation/nerd-dictation.py"

/-- The `begin` invocation built by `start_recording`, with stdout and stderr
redirected to pipes and the two conditional flags appended in source order. -/
def begin_cmd (path model_dir timeout_str cfg_file : String)
    (numbers_as_digits auto_punctuation : Bool) : SpawnCmd :=
  ⟨path,
   ["begin", "--vosk-model-dir", model_dir, "--timeout", timeout_str,
    "--config", cfg_file, "--output", "STDOUT", "--defer-output"] ++
     (if numbers_as_digits then ["--numbers-as-digits"] else []) ++
     (if auto_punctuation then ["--full-sentence"] else []),
   true, true⟩

/-- Result of a `start_recording` call: the `Result<(), String>` value, the
session state afterwards, and the external invocations attempted. -/
structure StartOut where
  result : Except String Unit
  state : VoiceState
  invoked : List SpawnCmd
deriving DecidableEq, Repr

/-- Embedding of the Rust `start_recording` command: resolve and record the
model path unconditionally, locate the engine, require the config file,
build the `begin` invocation, spawn, and store the handle on success. -/
def start_recording (env : Env) (config : RecordingConfig)
    (state : VoiceState) : StartOut :=
  let home := env.home.getD ""
  let model_dir := resolve_model_dir home config.model_size
  let state1 : VoiceState := ⟨state.process, model_dir⟩
  match locate_nerd env with
  | Except.error e =>
    ⟨Except.error ("nerd-dictation not found: " ++ e), state1, []⟩
  | Except.ok nerd_path =>
    let cfg_file := config_file_path home
    if !env.pathExists cfg_file then
      ⟨Except.error ("Configuration file not found: " ++ cfg_file ++
          ". Please create the nerd-dictation config file."), state1, []⟩
    else
      let cmd := begin_cmd nerd_path model_dir (toString config.timeout)
        cfg_file config.numbers_as_digits config.auto_punctuation
      match env.spawn cmd with
      | Except.error e =>
        ⟨Except.error ("Failed to start recording: " ++ e), state1, [cmd]⟩
      | Except.ok child => ⟨Except.ok (), ⟨some child, model_dir⟩, [cmd]⟩

/-- The `end` invocation issued by `stop_recording` via `Command::output()`
(which pipes both streams). -/
def end_cmd (path : String) : SpawnCmd := ⟨path, ["end"], true, true⟩

/-- Result of a `stop_recording` call: the `Result<String, String>` value,
the session state afterwards, the external invocations attempted, and the
warnings written to the log (`eprintln!`). -/
structure StopOut where
  result : Except String String
  state : VoiceState
  invoked : List SpawnCmd
  logs : List String
deriving DecidableEq, Repr

/-- Embedding of the Rust `stop_recording` command: take the handle first
(the single transition back to no-handle), then locate the engine, run the
`end` command (its exit status is bound to `_end_output` and never
inspected), wait for the recorded process, and return its trimmed
lossily-decoded stdout; non-empty stderr is logged, never an error. -/
def stop_recording (env : Env) (state : VoiceState) : StopOut :=
  let taken := state.process
  let state1 : VoiceState := ⟨none, state.model_path⟩
  match taken with
  | none => ⟨Except.error "No recording process found", state1, [], []⟩
  | some child =>
    match locate_nerd env with
    | Except.error e =>
      ⟨Except.error ("nerd-dictation not found: " ++ e), state1, [], []⟩
    | Except.ok path =>
      match env.exec (end_cmd path) with
      | Except.error e =>
        ⟨Except.error ("Failed to end recording: " ++ e), state1,
          [end_cmd path], []⟩
      | Except.ok _ =>
        match child.waitResult with
        | Except.error e =>
          ⟨Except.error ("Failed to read recording output: " ++ e), state1,
            [end_cmd path], []⟩
        | Except.ok out =>
          ⟨Except.ok (mkStr (rust_trim (utf8DecodeLossy out.stdout))), state1,
            [end_cmd path],
            if out.stderr.isEmpty then []
            else ["nerd-dictation stderr: " ++
                mkStr (utf8DecodeLossy out.stderr)]⟩

/-- The injection invocation built by `insert_text`: literal text as the
single argument after the `--` boundary marker. -/
def xdotool_cmd (text : String) : SpawnCmd :=
  ⟨"xdotool", ["type", "--clearmodifiers", "--", text], true, true⟩

/-- Result of an `insert_text` call: the `Result<(), String>` value and the
external invocations attempted (it touches no session state). -/
structure InsertOut where
  result : Except String Unit
  invoked : List SpawnCmd
deriving DecidableEq, Repr

/-- Embedding of the Rust `insert_text` command. -/
def insert_text (env : Env) (text : String) : InsertOut :=
  match env.exec (xdotool_cmd text) with
  | Except.error e =>
    ⟨Except.error ("Failed to insert text: " ++ e), [xdotool_cmd text]⟩
  | Except.ok out =>
    if !out.status_success then
      ⟨Except.error ("xdotool failed: " ++ mkStr (utf8DecodeLossy out.stderr)),
        [xdotool_cmd text]⟩
    else ⟨Except.ok (), [xdotool_cmd text]⟩

/-- The audio-source-listing invocation used by the microphone sub-check. -/
def pactl_cmd : SpawnCmd := ⟨"pactl", ["list", "sources", "short"], true, true⟩

/-- Boolean view of a `which` lookup result (`Result::is_ok`). -/
def isOkB (r : Except String String) : Bool :=
  match r with
  | Except.ok _ => true
  | Except.error _ => false

/-- Substring test on character lists, modelling Rust's `str::contains`
with a literal pattern. -/
def containsSeq (needle : List Char) : List Char → Bool
  | [] => needle.isEmpty
  | c :: rest => needle.isPrefixOf (c :: rest) || containsSeq needle rest

/-- Embedding of the Rust `check_voice_system` command: five independent
sub-checks, each writing only its own field; the pactl probe scans stdout
for "input" when the invocation succeeds and leaves the field false when it
fails; the function always returns `Ok`. -/
def check_voice_system (env : Env) : Except String VoiceSystemStatus :=
  let nerd := isOkB (env.which "nerd-dictation") ||
    isOkB (env.which ((env.home.getD "") ++ "/.local/bin/nerd-dictation"))
  let xdo := isOkB (env.which "xdotool")
  let home := env.home.getD ""
  let models_dir := home ++ "/.local/share/vosk-models"
  let small := env.pathExists (models_dir ++ "/vosk-model-small-en-us-0.15")
  let large := env.pathExists (models_dir ++ "/vosk-model-en-us-0.22")
  let mic :=
    match env.exec pactl_cmd with
    | Except.ok out => containsSeq "input".toList (utf8DecodeLossy out.stdout)
    | Except.error _ => false
  Except.ok ⟨nerd, xdo, small, large, mic⟩

/-- A child process whose stdout is the invalid-UTF-8 byte sequence
0xFF "hi" 0xC3 (a lone invalid byte and a truncated two-byte sequence). -/
def rawChild : Child := ⟨Except.ok ⟨false, [0xFF, 104, 105, 0xC3], []⟩⟩

/-- A child process whose captured output is "  hello world \n" on stdout
and "warn" on stderr, exiting successfully. -/
def goodChild : Child :=
  ⟨Except.ok ⟨true,
    [32, 32, 104, 101, 108, 108, 111, 32, 119, 111, 114, 108, 100, 32, 10],
    [119, 97, 114, 110]⟩⟩

/-- A second, distinct child process (stdout "x", no stderr). -/
def otherChild : Child := ⟨Except.ok ⟨true, [120], []⟩⟩

/-- An environment in which every dependency is present: both executables
resolve, all paths exist, spawning yields `otherChild`, and every
run-to-completion invocation succeeds (pactl printing "input"). -/
def goodEnv : Env :=
  ⟨some "/home/u",
   fun s =>
     if s == "nerd-dictation" then Except.ok "/usr/bin/nerd-dictation"
     else if s == "xdotool" then Except.ok "/usr/bin/xdotool"
     else Except.error ("cannot find binary path " ++ s),
   fun _ => true,
   fun _ => Except.ok otherChild,
   fun c =>
     if c.program == "pactl" then
       Except.ok ⟨true, [105, 110, 112, 117, 116], []⟩
     else Except.ok ⟨true, [], []⟩⟩

/-- A sample configuration. -/
def cfgSmall : RecordingConfig := ⟨30, "small", false, false⟩

/-- Like `goodEnv`, but the `end` invocation exits with a non-zero status
(stderr "err"); spawning fails, which `stop_recording` never does anyway. -/
def failEndEnv : Env :=
  ⟨some "/home/u",
   fun s =>
     if s == "nerd-dictation" then Except.ok "/usr/bin/nerd-dictation"
     else Except.error ("cannot find binary path " ++ s),
   fun _ => true,
   fun _ => Except.error "no spawn",
   fun c =>
     if c.args == ["end"] then Except.ok ⟨false, [], [101, 114, 114]⟩
     else Except.ok ⟨true, [], []⟩⟩

/-- Like `goodEnv`, but spawning any process fails with "boom". -/
def spawnFailEnv : Env :=
  ⟨some "/home/u",
   fun s =>
     if s == "nerd-dictation" then Except.ok "/usr/bin/nerd-dictation"
     else if s == "xdotool" then Except.ok "/usr/bin/xdotool"
     else Except.error ("cannot find binary path " ++ s),
   fun _ => true,
   fun _ => Except.error "boom",
   fun _ => Except.ok ⟨true, [], []⟩⟩

/-- Like `goodEnv`, but no filesystem path exists (in particular the
per-user configuration file is missing). -/
def noCfgEnv : Env :=
  ⟨some "/home/u",
   fun s =>
     if s == "nerd-dictation" then Except.ok "/usr/bin/nerd-dictation"
     else if s == "xdotool" then Except.ok "/usr/bin/xdotool"
     else Except.error ("cannot find binary path " ++ s),
   fun _ => false,
   fun _ => Except.ok otherChild,
   fun _ => Except.ok ⟨true, [], []⟩⟩

/-- Like `goodEnv`, but the engine executable is absent from both search
locations; everything else is present and behaves as in `goodEnv`. -/
def noEngineEnv : Env :=
  ⟨some "/home/u",
   fun s =>
     if s == "xdotool" then Except.ok "/usr/bin/xdotool"
     else Except.error ("cannot find binary path " ++ s),
   fun _ => true,
   fun _ => Except.ok otherChild,
   fun c =>
     if c.program == "pactl" then
       Except.ok ⟨true, [105, 110, 112, 117, 116], []⟩
     else Except.ok ⟨true, [], []⟩⟩

/-- An environment in which every run-to-completion invocation fails at the
OS level (pactl unavailable) and the injection tool exits non-zero is
modelled separately below. -/
def pactlFailEnv : Env :=
  ⟨some "/home/u",
   fun s =>
     if s == "nerd-dictation" then Except.ok "/usr/bin/nerd-dictation"
     else if s == "xdotool" then Except.ok "/usr/bin/xdotool"
     else Except.error ("cannot find binary path " ++ s),
   fun _ => true,
   fun _ => Except.ok otherChild,
   fun _ => Except.error "No such file or directory"⟩

/-- An environment whose injection tool runs but exits non-zero with
stderr "bad". -/
def xdoFailEnv : Env :=
  ⟨some "/home/u",
   fun s =>
     if s == "xdotool" then Except.ok "/usr/bin/xdotool"
     else Except.error ("cannot find binary path " ++ s),
   fun _ => true,
   fun _ => Except.error "nf",
   fun _ => Except.ok ⟨false, [], [98, 97, 100]⟩⟩

/-- The five-field status `check_voice_system` assembles, written as one
record (definitionally the body of `check_voice_system`). -/
def probe_status (env : Env) : VoiceSystemStatus :=
  ⟨isOkB (env.which "nerd-dictation") ||
     isOkB (env.which ((env.home.getD "") ++ "/.local/bin/nerd-dictation")),
   isOkB (env.which "xdotool"),
   env.pathExists ((env.home.getD "") ++ "/.local/share/vosk-models" ++
     "/vosk-model-small-en-us-0.15"),
   env.pathExists ((env.home.getD "") ++ "/.local/share/vosk-models" ++
     "/vosk-model-en-us-0.22"),
   match env.exec pactl_cmd with
   | Except.ok out => containsSeq "input".toList (utf8DecodeLossy out.stdout)
   | Except.error _ => false⟩

/-- After any `stop_recording` call, successful or not, the handle slot is
empty: the take happens before any fallible step. -/
lemma stop_state_process_none (env : Env) (state : VoiceState) :
    (stop_recording env state).state.process = none := by
  unfold stop_recording
  cases h : state.process
  · simp [h]
  · simp only [h]
    (repeat' split) <;> rfl

/-- On every branch of `start_recording` the diagnostic model-path field of
the resulting state is the resolved model directory. -/
lemma start_state_model_path (env : Env) (config : RecordingConfig)
    (state : VoiceState) :
    (start_recording env config state).state.model_path =
      resolve_model_dir (env.home.getD "") config.model_size := by
  unfold start_recording
  dsimp only
  (repeat' split) <;> rfl

/-- C3: with no process handle stored, `stop_recording` returns the
`NoActiveSession` error ("No recording process found"), performs no external
invocation, and leaves the state unchanged; and since every stop call leaves
the handle slot empty, a second stop in a row always reports the same error
rather than crashing. -/
theorem c3_stop_idle_no_session :
    (∀ (env : Env) (state : VoiceState), state.process = none →
      stop_recording env state =
        ⟨Except.error "No recording process found", state, [], []⟩) ∧
    (∀ (env env2 : Env) (state : VoiceState),
      (stop_recording env2 (stop_recording env state).state).result =
        Except.error "No recording process found") := by
  constructor
  · intro env state h
    cases state with
    | mk pr mp =>
      cases h
      simp [stop_recording]
  · intro env env2 state
    generalize hgen : (stop_recording env state).state = s2
    have h : s2.process = none := by
      rw [← hgen]
      exact stop_state_process_none env state
    simp [stop_recording, h]

/-- C3 witness: stopping with no stored handle in `goodEnv` reports the
error, performs no invocation and changes nothing; a stop right after a
stop on an active session reports the same error. -/
theorem c3_stop_idle_no_session_witness :
    stop_recording goodEnv ⟨none, "m"⟩ =
      ⟨Except.error "No recording process found", ⟨none, "m"⟩, [], []⟩ ∧
    (stop_recording goodEnv
        (stop_recording goodEnv ⟨some goodChild, "m"⟩).state).result =
      Except.error "No recording process found" :=
  ⟨c3_stop_idle_no_session.1 goodEnv ⟨none, "m"⟩ rfl,
   c3_stop_idle_no_session.2 goodEnv goodEnv ⟨some goodChild, "m"⟩⟩

/-- C1 counterexample: in `goodEnv`, calling `start_recording` while a
handle (`goodChild`) is already present succeeds and stores the freshly
spawned `otherChild` over the existing handle — the code has no
only-from-Idle guard, contrary to the claim that no second handle is ever
stored over an existing one. -/
theorem c1_counterexample :
    (start_recording goodEnv cfgSmall ⟨some goodChild, "m"⟩).state.process =
      some otherChild ∧
    otherChild ≠ goodChild ∧
    (start_recording goodEnv cfgSmall ⟨some goodChild, "m"⟩).result =
      Except.ok () := by
  refine ⟨by decide, by decide, by decide⟩

/-- C1 (amended): `start_recording` never checks for an existing handle —
whenever all precondition gates pass and the spawn succeeds, it stores the
new handle unconditionally, for every prior state, overwriting (and thereby
discarding, not handing to a stop) any handle already present; the state
field, being optional, still holds at most one handle at a time. -/
theorem c1_start_overwrites (env : Env) (config : RecordingConfig)
    (state : VoiceState) (p : String) (child : Child)
    (hloc : locate_nerd env = Except.ok p)
    (hcfg : env.pathExists (config_file_path (env.home.getD "")) = true)
    (hspawn : env.spawn (begin_cmd p
        (resolve_model_dir (env.home.getD "") config.model_size)
        (toString config.timeout) (config_file_path (env.home.getD ""))
        config.numbers_as_digits config.auto_punctuation) = Except.ok child) :
    (start_recording env config state).state.process = some child ∧
    (start_recording env config state).result = Except.ok () := by
  constructor <;> simp [start_recording, hloc, hcfg, hspawn]

/-- C1 witness: starting from the already-active state in `goodEnv` stores
the newly spawned handle. -/
theorem c1_start_overwrites_witness :
    (start_recording goodEnv cfgSmall ⟨some goodChild, "m"⟩).state.process =
      some otherChild ∧
    (start_recording goodEnv cfgSmall ⟨some goodChild, "m"⟩).result =
      Except.ok () := by
  have h := c1_start_overwrites goodEnv cfgSmall ⟨some goodChild, "m"⟩
    "/usr/bin/nerd-dictation" otherChild (by decide) (by decide) (by decide)
  exact ⟨h.1, h.2⟩

/-- C2 counterexample: in `failEndEnv` the `end` invocation runs and exits
with a non-zero status, yet `stop_recording` on an active session returns
`Ok "hello world"` rather than a `StopFailed` error — the exit status of the
end command is bound to `_end_output` and never inspected. -/
theorem c2_counterexample :
    failEndEnv.exec (end_cmd "/usr/bin/nerd-dictation") =
      Except.ok ⟨false, [], [101, 114, 114]⟩ ∧
    (stop_recording failEndEnv ⟨some goodChild, "m"⟩).result =
      Except.ok "hello world" := by
  refine ⟨by decide, by decide⟩

/-- C2 (amended): every `stop_recording` call leaves the handle slot empty
(the take precedes every fallible step, so the session is back to Idle on
every failure path as well as on success); if locating the engine fails, or
invoking the end command fails at the OS level, the call propagates the
corresponding error — but a non-zero exit status of the end command is
ignored and does not make the operation fail. -/
theorem c2_stop_failure_paths :
    (∀ (env : Env) (state : VoiceState),
      (stop_recording env state).state.process = none) ∧
    (∀ (env : Env) (state : VoiceState) (child : Child) (e : String),
      state.process = some child → locate_nerd env = Except.error e →
      (stop_recording env state).result =
        Except.error ("nerd-dictation not found: " ++ e)) ∧
    (∀ (env : Env) (state : VoiceState) (child : Child) (p e : String),
      state.process = some child → locate_nerd env = Except.ok p →
      env.exec (end_cmd p) = Except.error e →
      (stop_recording env state).result =
        Except.error ("Failed to end recording: " ++ e)) := by
  refine ⟨stop_state_process_none, ?_, ?_⟩
  · intro env state child e hc hl
    simp [stop_recording, hc, hl]
  · intro env state child p e hc hl he
    simp [stop_recording, hc, hl, he]

/-- C2 witness: in `pactlFailEnv` every run-to-completion invocation fails
at the OS level, so stopping an active session propagates the end-command
failure, and the handle slot is empty afterwards. -/
theorem c2_stop_failure_paths_witness :
    (stop_recording pactlFailEnv ⟨some goodChild, "m"⟩).state.process = none ∧
    (stop_recording pactlFailEnv ⟨some goodChild, "m"⟩).result =
      Except.error "Failed to end recording: No such file or directory" := by
  refine ⟨c2_stop_failure_paths.1 pactlFailEnv ⟨some goodChild, "m"⟩, ?_⟩
  exact c2_stop_failure_paths.2.2 pactlFailEnv ⟨some goodChild, "m"⟩ goodChild
    "/usr/bin/nerd-dictation" "No such file or directory" rfl (by decide)
    (by decide)

/-- C4: on the successful stop path (handle present, engine located, end
command ran, wait succeeded), the returned transcript is exactly the
captured stdout, lossily decoded and trimmed of surrounding whitespace; a
non-empty stderr only produces a log warning and never turns the result
into an error. -/
theorem c4_stop_transcript (env : Env) (state : VoiceState) (child : Child)
    (p : String) (out : ProcOutput)
    (hactive : state.process = some child)
    (hloc : locate_nerd env = Except.ok p)
    (hend : ∃ eo, env.exec (end_cmd p) = Except.ok eo)
    (hwait : child.waitResult = Except.ok out) :
    (stop_recording env state).result =
      Except.ok (mkStr (rust_trim (utf8DecodeLossy out.stdout))) ∧
    (stop_recording env state).logs =
      (if out.stderr.isEmpty then []
       else ["nerd-dictation stderr: " ++ mkStr (utf8DecodeLossy out.stderr)]) := by
  obtain ⟨eo, hend⟩ := hend
  constructor <;> simp [stop_recording, hactive, hloc, hend, hwait]

/-- C4 witness: stopping `goodChild` (stdout "  hello world \n", stderr
"warn") in `goodEnv` yields exactly "hello world" and one logged warning. -/
theorem c4_stop_transcript_witness :
    (stop_recording goodEnv ⟨some goodChild, "m"⟩).result =
      Except.ok "hello world" ∧
    (stop_recording goodEnv ⟨some goodChild, "m"⟩).logs =
      ["nerd-dictation stderr: warn"] := by
  have h := c4_stop_transcript goodEnv ⟨some goodChild, "m"⟩ goodChild
    "/usr/bin/nerd-dictation" ⟨true,
      [32, 32, 104, 101, 108, 108, 111, 32, 119, 111, 114, 108, 100, 32, 10],
      [119, 97, 114, 110]⟩ rfl (by decide) ⟨⟨true, [], []⟩, by decide⟩ rfl
  refine ⟨h.1.trans ?_, h.2.trans ?_⟩ <;> decide

/-- C5: when spawning the engine fails, `start_recording` returns the
`SpawnFailed` error ("Failed to start recording: ...") and the handle slot
is exactly what it was before the call — for an idle state, still idle, so
the caller may retry. -/
theorem c5_spawn_failed (env : Env) (config : RecordingConfig)
    (state : VoiceState) (p e : String)
    (hloc : locate_nerd env = Except.ok p)
    (hcfg : env.pathExists (config_file_path (env.home.getD "")) = true)
    (hspawn : env.spawn (begin_cmd p
        (resolve_model_dir (env.home.getD "") config.model_size)
        (toString config.timeout) (config_file_path (env.home.getD ""))
        config.numbers_as_digits config.auto_punctuation) = Except.error e) :
    (start_recording env config state).result =
      Except.error ("Failed to start recording: " ++ e) ∧
    (start_recording env config state).state.process = state.process := by
  constructor <;> simp [start_recording, hloc, hcfg, hspawn]

/-- C5 witness: in `spawnFailEnv` (spawn fails with "boom") a start from the
idle state fails with the spawn error and the handle slot stays empty. -/
theorem c5_spawn_failed_witness :
    (start_recording spawnFailEnv cfgSmall ⟨none, ""⟩).result =
      Except.error "Failed to start recording: boom" ∧
    (start_recording spawnFailEnv cfgSmall ⟨none, ""⟩).state.process = none := by
  have h := c5_spawn_failed spawnFailEnv cfgSmall ⟨none, ""⟩
    "/usr/bin/nerd-dictation" "boom" (by decide) (by decide) (by decide)
  exact ⟨h.1, h.2⟩

/-- C6: with the engine present but the per-user configuration file absent,
`start_recording` returns the `ConfigurationMissing` error, the handle slot
stays empty, and the model-path diagnostic field has nevertheless been set
to the resolved model directory. -/
theorem c6_config_missing (env : Env) (config : RecordingConfig)
    (state : VoiceState) (p : String)
    (hloc : locate_nerd env = Except.ok p)
    (hcfg : env.pathExists (config_file_path (env.home.getD "")) = false)
    (hidle : state.process = none) :
    (start_recording env config state).result =
      Except.error ("Configuration file not found: " ++
        config_file_path (env.home.getD "") ++
        ". Please create the nerd-dictation config file.") ∧
    (start_recording env config state).state.process = none ∧
    (start_recording env config state).state.model_path =
      resolve_model_dir (env.home.getD "") config.model_size := by
  refine ⟨?_, ?_, start_state_model_path env config state⟩ <;>
    simp [start_recording, hloc, hcfg, hidle]

/-- C6 witness: in `noCfgEnv` (engine present, no file exists) a start from
the idle state reports the missing configuration file, stores no handle, and
has recorded the resolved model directory. -/
theorem c6_config_missing_witness :
    (start_recording noCfgEnv cfgSmall ⟨none, ""⟩).result =
      Except.error ("Configuration file not found: " ++
        "/home/u/.config/nerd-dictation/nerd-dictation.py" ++
        ". Please create the nerd-dictation config file.") ∧
    (start_recording noCfgEnv cfgSmall ⟨none, ""⟩).state.process = none ∧
    (start_recording noCfgEnv cfgSmall ⟨none, ""⟩).state.model_path =
      "/home/u/.local/share/vosk-models/vosk-model-small-en-us-0.15" := by
  have h := c6_config_missing noCfgEnv cfgSmall ⟨none, ""⟩
    "/usr/bin/nerd-dictation" (by decide) (by decide) rfl
  exact ⟨h.1.trans (by decide), h.2.1, h.2.2.trans (by decide)⟩

/-- C7: model-path resolution is a pure total mapping on the size selector —
"large" yields the large-model directory name, every other string yields the
small-model one, under the fixed base under the home location — and every
`start_recording` call, in every environment (so with no existence check
involved), records exactly this resolution in the state. -/
theorem c7_model_resolution :
    model_name "large" = "vosk-model-en-us-0.22" ∧
    (∀ s : String, s ≠ "large" →
      model_name s = "vosk-model-small-en-us-0.15") ∧
    (∀ h s : String,
      resolve_model_dir h s = h ++ "/.local/share/vosk-models/" ++ model_name s) ∧
    (∀ (env : Env) (config : RecordingConfig) (state : VoiceState),
      (start_recording env config state).state.model_path =
        resolve_model_dir (env.home.getD "") config.model_size) := by
  refine ⟨rfl, ?_, fun h s => rfl, start_state_model_path⟩
  intro s hs
  simp [model_name, hs]

/-- C8: for every input text and environment, `insert_text` invokes exactly
the injection tool with argument list ["type", "--clearmodifiers", "--",
text] — the literal text as a single trailing argument after the boundary
marker; an OS-level invocation failure or a non-zero exit is reported as the
injection error (the latter carrying the tool's captured stderr). -/
theorem c8_insert_text_args (env : Env) (text : String) :
    (insert_text env text).invoked =
      [⟨"xdotool", ["type", "--clearmodifiers", "--", text], true, true⟩] ∧
    (∀ e : String, env.exec (xdotool_cmd text) = Except.error e →
      (insert_text env text).result =
        Except.error ("Failed to insert text: " ++ e)) ∧
    (∀ out : ProcOutput, env.exec (xdotool_cmd text) = Except.ok out →
      out.status_success = false →
      (insert_text env text).result =
        Except.error ("xdotool failed: " ++ mkStr (utf8DecodeLossy out.stderr))) := by
  refine ⟨?_, ?_, ?_⟩
  · unfold insert_text
    (repeat' split) <;> rfl
  · intro e he
    simp [insert_text, he]
  · intro out ho hs
    simp [insert_text, ho, hs]

/-- C8 witness: injecting the dash-initial text "-hi" in `xdoFailEnv` passes
it verbatim after the "--" marker, and the tool's non-zero exit yields the
injection error carrying its stderr ("bad"). -/
theorem c8_insert_text_args_witness :
    (insert_text xdoFailEnv "-hi").invoked =
      [⟨"xdotool", ["type", "--clearmodifiers", "--", "-hi"], true, true⟩] ∧
    (insert_text xdoFailEnv "-hi").result =
      Except.error ("xdotool failed: " ++ mkStr (utf8DecodeLossy [98, 97, 100])) := by
  refine ⟨(c8_insert_text_args xdoFailEnv "-hi").1, ?_⟩
  exact (c8_insert_text_args xdoFailEnv "-hi").2.2 ⟨false, [], [98, 97, 100]⟩
    rfl rfl

/-- C9: the probe always returns a status (never an error); a failed pactl
invocation only makes the microphone field false; an engine absent from both
search locations only makes the engine field false; and every field other
than the engine field is computed independently of the engine lookups (two
environments agreeing on everything else produce identical values for the
other four fields). -/
theorem c9_probe_independent :
    (∀ env : Env, ∃ st, check_voice_system env = Except.ok st) ∧
    (∀ (env : Env) (e : String), env.exec pactl_cmd = Except.error e →
      ∃ st, check_voice_system env = Except.ok st ∧ st.microphone = false) ∧
    (∀ env : Env,
      isOkB (env.which "nerd-dictation") = false →
      isOkB (env.which ((env.home.getD "") ++ "/.local/bin/nerd-dictation")) = false →
      ∃ st, check_voice_system env = Except.ok st ∧ st.nerd_dictation = false) ∧
    (∀ env env2 : Env, env.home = env2.home →
      env.pathExists = env2.pathExists → env.exec = env2.exec →
      env.which "xdotool" = env2.which "xdotool" →
      ∃ st st2, check_voice_system env = Except.ok st ∧
        check_voice_system env2 = Except.ok st2 ∧
        st.xdotool = st2.xdotool ∧
        st.vosk_model_small = st2.vosk_model_small ∧
        st.vosk_model_large = st2.vosk_model_large ∧
        st.microphone = st2.microphone) := by
  refine ⟨fun env => ⟨probe_status env, rfl⟩, ?_, ?_, ?_⟩
  · intro env e hpe
    refine ⟨probe_status env, rfl, ?_⟩
    simp [probe_status, hpe]
  · intro env h1 h2
    refine ⟨probe_status env, rfl, ?_⟩
    simp [probe_status, h1, h2]
  · intro env env2 hh hp he hx
    refine ⟨probe_status env, probe_status env2, rfl, rfl, ?_, ?_, ?_, ?_⟩
    · simp only [probe_status]
      rw [hx]
    · simp only [probe_status]
      rw [hh, hp]
    · simp only [probe_status]
      rw [hh, hp]
    · simp only [probe_status]
      rw [he]

/-- C9 witness: `goodEnv` yields all five fields true; `noEngineEnv`, which
agrees with `goodEnv` on everything except the engine lookups, yields a
false engine field while the other four fields coincide with `goodEnv`'s. -/
theorem c9_probe_independent_witness :
    check_voice_system goodEnv = Except.ok ⟨true, true, true, true, true⟩ ∧
    (∃ st, check_voice_system noEngineEnv = Except.ok st ∧
      st.nerd_dictation = false) ∧
    (∃ st st2, check_voice_system goodEnv = Except.ok st ∧
      check_voice_system noEngineEnv = Except.ok st2 ∧
      st.xdotool = st2.xdotool ∧
      st.vosk_model_small = st2.vosk_model_small ∧
      st.vosk_model_large = st2.vosk_model_large ∧
      st.microphone = st2.microphone) ∧
    (∃ st, check_voice_system pactlFailEnv = Except.ok st ∧
      st.microphone = false) := by
  refine ⟨by decide,
    c9_probe_independent.2.2.1 noEngineEnv (by decide) (by decide),
    c9_probe_independent.2.2.2 goodEnv noEngineEnv rfl rfl rfl (by decide),
    c9_probe_independent.2.1 pactlFailEnv "No such file or directory"
      (by decide)⟩

/-- C10: the transcript-extraction step is total in the captured stdout
bytes: for every byte list, including invalid UTF-8, the successful stop
path returns `Ok` of the lossily decoded, trimmed text — never an error
caused by invalid UTF-8. -/
theorem c10_lossy_decode_total (env : Env) (state : VoiceState)
    (child : Child) (p : String) (stat : Bool) (bs errbs : List Nat)
    (hactive : state.process = some child)
    (hloc : locate_nerd env = Except.ok p)
    (hend : ∃ eo, env.exec (end_cmd p) = Except.ok eo)
    (hwait : child.waitResult = Except.ok ⟨stat, bs, errbs⟩) :
    (stop_recording env state).result =
      Except.ok (mkStr (rust_trim (utf8DecodeLossy bs))) := by
  obtain ⟨eo, hend⟩ := hend
  simp [stop_recording, hactive, hloc, hend, hwait]

/-- C10 witness: stopping `rawChild`, whose stdout bytes 0xFF "hi" 0xC3 are
not valid UTF-8, still succeeds, with each invalid subpart decoded to the
replacement character. -/
theorem c10_lossy_decode_total_witness :
    (stop_recording goodEnv ⟨some rawChild, "m"⟩).result =
      Except.ok (mkStr [repl, 'h', 'i', repl]) := by
  have h := c10_lossy_decode_total goodEnv ⟨some rawChild, "m"⟩ rawChild
    "/usr/bin/nerd-dictation" false [0xFF, 104, 105, 0xC3] [] rfl (by decide)
    ⟨⟨true, [], []⟩, by decide⟩ rfl
  exact h.trans (by decide)

/-- C7 witness: the unrecognized selectors "Large", "medium" and "" resolve
to the small-model name, and a concrete start call records the resolved
directory. -/
theorem c7_model_resolution_witness :
    model_name "Large" = "vosk-model-small-en-us-0.15" ∧
    model_name "medium" = "vosk-model-small-en-us-0.15" ∧
    model_name "" = "vosk-model-small-en-us-0.15" ∧
    (start_recording goodEnv ⟨30, "large", false, false⟩ ⟨none, ""⟩).state.model_path =
      resolve_model_dir "/home/u" "large" := by
  refine ⟨c7_model_resolution.2.1 "Large" (by decide),
    c7_model_resolution.2.1 "medium" (by decide),
    c7_model_resolution.2.1 "" (by decide),
    (c7_model_resolution.2.2.2 goodEnv ⟨30, "large", false, false⟩ ⟨none, ""⟩).trans ?_⟩
  decide
